import Mathlib

/-!
Shallow embedding of `pytorch3d/datasets/shapenet/shapenet_core.py`.

The Python class `ShapeNetCore` indexes an on-disk mesh collection laid out as
`<data_dir>/<synset>/<model>/<mesh file>`.  Construction resolves the requested
synset categories against a version-specific synset dictionary and the
filesystem, builds two parallel lists `synset_ids` / `model_ids`, and
`__getitem__` assembles a record for an integer index using Python list
indexing semantics (negative indices count from the end).

The filesystem is modelled as an abstract record of the three query functions
the source uses (`os.listdir`, `os.path.isdir`, `os.path.exists`); paths are
strings joined with `/` as `os.path.join` does for relative components.
Python exceptions are modelled with `Except`; `warnings.warn` calls are
modelled by accumulating a list of `Warning` values carrying the data that the
source interpolates into the warning message.
-/

/-- Python exceptions that the embedded code can raise. -/
inductive PyError where
  | valueError
  | keyError
  | indexError
deriving DecidableEq

/-- One `warnings.warn` call, carrying the values interpolated into the
message text by the source. -/
inductive Warning where
  /-- "Synset category %s either not part of ShapeNetCore dataset or cannot
  be found in %s." (synset, data_dir) -/
  | synsetNotFound (synset : String) (data_dir : String)
  /-- "Synset category %s(%s) is part of ShapeNetCore ver.%s but not found
  in %s." (synset, label, version, data_dir) -/
  | synsetNotInDict (synset : String) (label : String) (version : Int) (data_dir : String)
  /-- "Object file not found in the model directory %s under synset
  directory %s." (model, synset) -/
  | objNotFound (model : String) (synset : String)
deriving DecidableEq

/-- The filesystem queries used by `ShapeNetCore.__init__`:
`os.listdir`, `os.path.isdir`, `os.path.exists`. -/
structure FileSystem where
  listdir : String → List String
  isdir : String → Bool
  pathExists : String → Bool

/-- `os.path.join` for relative path components (no absolute second argument,
no trailing separators), as used throughout the source. -/
def pathJoin (a b : String) : String := a ++ "/" ++ b

/-- Lookup in the inverse dictionary
`synset_inv = {label: offset for offset, label in self.synset_dict.items()}`:
a label is a key iff some entry of `synset_dict` carries it, and its value is
the offset of the last such entry (later comprehension iterations overwrite). -/
def invLookup (d : List (String × String)) (label : String) : Option String :=
  (d.reverse.find? (fun p => p.2 = label)).map (fun p => p.1)

/-- The per-identifier resolution step of the `synsets is not None` branch:
accept `synset` itself when it is a dictionary key whose directory exists,
otherwise accept `synset_inv[synset]` when `synset` is a label whose mapped
offset's directory exists, otherwise reject (`none`). -/
def resolveOne (fs : FileSystem) (data_dir : String) (d : List (String × String))
    (synset : String) : Option String :=
  if (List.lookup synset d).isSome ∧ fs.isdir (pathJoin data_dir synset) then
    some synset
  else
    match invLookup d synset with
    | some offset => if fs.isdir (pathJoin data_dir offset) then some offset else none
    | none => none

/-- Add to a Python `set`, modelled as a duplicate-free list in insertion
order: adding an element that is already a member is a no-op. -/
def setAdd (l : List String) (s : String) : List String :=
  if s ∈ l then l else l ++ [s]

/-- The `for synset in synsets` loop of the `synsets is not None` branch:
accepted identifiers are added to the set, rejected ones produce a
`synsetNotFound` warning. -/
def resolveAux (fs : FileSystem) (data_dir : String) (d : List (String × String))
    (acc : List String) (ws : List Warning) :
    List String → List String × List Warning
  | [] => (acc, ws)
  | s :: rest =>
    match resolveOne fs data_dir d s with
    | some c => resolveAux fs data_dir d (setAdd acc c) ws rest
    | none => resolveAux fs data_dir d acc (ws ++ [Warning.synsetNotFound s data_dir]) rest

/-- Resolution of an explicit `synsets` list into the category set
(`synset_set`) together with the warnings the loop emits. -/
def resolveSynsets (fs : FileSystem) (data_dir : String) (d : List (String × String))
    (synsets : List String) : List String × List Warning :=
  resolveAux fs data_dir d [] [] synsets

/-- The `synsets is None` branch's set comprehension:
`{synset for synset in os.listdir(data_dir) if path.isdir(...)}`, a set of
immediate subdirectory names of `data_dir`. -/
def allSubdirs (fs : FileSystem) (data_dir : String) : List String :=
  ((fs.listdir data_dir).filter (fun s => fs.isdir (pathJoin data_dir s))).dedup

/-- The warning loop of the `synsets is None` branch.  For each member of the
set that is not a dictionary key the source builds the warning message by
interpolating `self.synset_dict[synset]` — an access that raises `KeyError`
precisely because the guard established the key is absent.  The embedding
keeps the source's shape: the guarded branch reads the dictionary value and
only then warns. -/
def warnUnknownSynsets (d : List (String × String)) (version : Int) (data_dir : String) :
    List String → Except PyError (List Warning)
  | [] => Except.ok []
  | s :: rest =>
    if (List.lookup s d).isSome then warnUnknownSynsets d version data_dir rest
    else
      match List.lookup s d with
      | some label =>
        match warnUnknownSynsets d version data_dir rest with
        | Except.ok ws => Except.ok (Warning.synsetNotInDict s label version data_dir :: ws)
        | Except.error e => Except.error e
      | none => Except.error PyError.keyError

/-- The inner model loop for one synset directory: a model contributes the
pair `(synset, model)` when
`<data_dir>/<synset>/<model>/<model_dir>` exists, and an `objNotFound`
warning otherwise. -/
def buildModels (fs : FileSystem) (data_dir model_dir synset : String) :
    List String → List (String × String) × List Warning
  | [] => ([], [])
  | model :: rest =>
    let r := buildModels fs data_dir model_dir synset rest
    if fs.pathExists (pathJoin (pathJoin (pathJoin data_dir synset) model) model_dir) then
      ((synset, model) :: r.1, r.2)
    else
      (r.1, Warning.objNotFound model synset :: r.2)

/-- The index-building double loop: for each synset of the resolved set,
walk `os.listdir(path.join(data_dir, synset))` and keep the models whose
mesh file exists. -/
def buildIndex (fs : FileSystem) (data_dir model_dir : String) :
    List String → List (String × String) × List Warning
  | [] => ([], [])
  | synset :: rest =>
    let here := buildModels fs data_dir model_dir synset
      (fs.listdir (pathJoin data_dir synset))
    let there := buildIndex fs data_dir model_dir rest
    (here.1 ++ there.1, here.2 ++ there.2)

/-- `self.model_dir = 'model.obj' if version == 1 else 'models/model_normalized.obj'`. -/
def modelDirFor (version : Int) : String :=
  if version = 1 then "model.obj" else "models/model_normalized.obj"

/-- The synset dictionary loaded for the version.  Modelled from the spec:
the JSON resource files `shapenet_synset_dict_v1.json` / `_v2.json` are
bundled configuration outside the source file, so the two dictionaries are
parameters; per the spec the load succeeds for versions 1 and 2. -/
def dictFor (version : Int) (dict1 dict2 : List (String × String)) :
    List (String × String) :=
  if version = 1 then dict1 else dict2

/-- The state a successfully constructed `ShapeNetCore` object carries. -/
structure ShapeNetCore where
  data_dir : String
  model_dir : String
  synset_dict : List (String × String)
  synset_ids : List String
  model_ids : List String
deriving DecidableEq

/-- Assemble the object's fields from the index pairs: the source appends to
`synset_ids` and `model_ids` in lockstep, which is the pair list projected
twice. -/
def mkCore (data_dir model_dir : String) (d : List (String × String))
    (ix : List (String × String)) : ShapeNetCore :=
  { data_dir := data_dir
    model_dir := model_dir
    synset_dict := d
    synset_ids := ix.map Prod.fst
    model_ids := ix.map Prod.snd }

/-- The category set (`synset_set`) construction of both branches, without
the warning pass of the `None` branch. -/
def resolvedSet (fs : FileSystem) (data_dir : String) (d : List (String × String)) :
    Option (List String) → List String
  | some l => (resolveSynsets fs data_dir d l).1
  | none => allSubdirs fs data_dir

/-- `ShapeNetCore.__init__`: version check, dictionary load, category
resolution, index building.  Returns the constructed object and the warnings
emitted, or the Python exception raised. -/
def init (fs : FileSystem) (data_dir : String) (synsets : Option (List String))
    (version : Int) (dict1 dict2 : List (String × String)) :
    Except PyError (ShapeNetCore × List Warning) :=
  if ¬(version = 1 ∨ version = 2) then Except.error PyError.valueError
  else
    let model_dir := modelDirFor version
    let d := dictFor version dict1 dict2
    match synsets with
    | some l =>
      let r := resolveSynsets fs data_dir d l
      let b := buildIndex fs data_dir model_dir r.1
      Except.ok (mkCore data_dir model_dir d b.1, r.2 ++ b.2)
    | none =>
      let sset := allSubdirs fs data_dir
      match warnUnknownSynsets d version data_dir sset with
      | Except.error e => Except.error e
      | Except.ok ws1 =>
        let b := buildIndex fs data_dir model_dir sset
        Except.ok (mkCore data_dir model_dir d b.1, ws1 ++ b.2)

/-- `ShapeNetCore.__len__`: `len(self.model_ids)`. -/
def ShapeNetCore.len (sn : ShapeNetCore) : Nat := sn.model_ids.length

/-- Python list indexing `l[i]` for an `int` index: a negative index counts
from the end; an index out of `[-len, len)` raises `IndexError`. -/
def pyGet {α : Type} (l : List α) (i : Int) : Except PyError α :=
  let n : Int := l.length
  let j := if i < 0 then i + n else i
  if h : 0 ≤ j ∧ j < n then
    Except.ok (l.get ⟨j.toNat, by omega⟩)
  else
    Except.error PyError.indexError

/-- The `faces` aggregate returned by the external mesh loader; the source
reads its `verts_idx` attribute. -/
structure ObjFaces (F : Type) where
  verts_idx : F
deriving DecidableEq

/-- Result triple of `pytorch3d.io.load_obj`.  Modelled from the spec: the
loader is an external collaborator outside the source file, returning vertex
positions, a faces aggregate and auxiliary data; it is treated as an opaque
injected function. -/
structure ObjResult (V F A : Type) where
  verts : V
  faces : ObjFaces F
  aux : A
deriving DecidableEq

/-- The record (Python dictionary) returned by `ShapeNetCore.__getitem__`. -/
structure ShapeNetModel (V F : Type) where
  synset_id : String
  model_id : String
  verts : V
  faces : F
  label : String
deriving DecidableEq

/-- `ShapeNetCore.__getitem__`: index both parallel lists, build the mesh
path, delegate to the loader, and attach the dictionary label (a plain
`dict[...]` access that raises `KeyError` on a missing key). -/
def getitem {V F A : Type} (load_obj : String → ObjResult V F A)
    (sn : ShapeNetCore) (idx : Int) : Except PyError (ShapeNetModel V F) :=
  match pyGet sn.synset_ids idx with
  | Except.error e => Except.error e
  | Except.ok synset_id =>
    match pyGet sn.model_ids idx with
    | Except.error e => Except.error e
    | Except.ok model_id =>
      let model_path :=
        pathJoin (pathJoin (pathJoin sn.data_dir synset_id) model_id) sn.model_dir
      let r := load_obj model_path
      match List.lookup synset_id sn.synset_dict with
      | some label =>
        Except.ok { synset_id := synset_id, model_id := model_id
                    verts := r.verts, faces := r.faces.verts_idx, label := label }
      | none => Except.error PyError.keyError

/-! ## Supporting lemmas -/

theorem lookup_isSome_of_fst_mem {d : List (String × String)} {c : String}
    (h : c ∈ d.map Prod.fst) : (List.lookup c d).isSome := by
  induction d with
  | nil => simp at h
  | cons p rest ih =>
    by_cases hc : c = p.1
    · simp [List.lookup, hc]
    · have h1 : c ∈ rest.map Prod.fst := by
        rcases List.mem_map.mp h with ⟨q, hq, hqc⟩
        rcases List.mem_cons.mp hq with rfl | hq'
        · exact absurd hqc.symm hc
        · exact hqc ▸ List.mem_map_of_mem Prod.fst hq'
      have hb : (c == p.1) = false := beq_false_of_ne hc
      simpa [List.lookup, hb] using ih h1

theorem invLookup_key {d : List (String × String)} {s c : String}
    (h : invLookup d s = some c) : (List.lookup c d).isSome := by
  unfold invLookup at h
  rcases hf : d.reverse.find? (fun p => p.2 = s) with _ | p <;> rw [hf] at h
  · simp at h
  · simp only [Option.map_some'] at h
    have hp : p ∈ d.reverse := List.mem_of_find?_eq_some hf
    rw [List.mem_reverse] at hp
    exact lookup_isSome_of_fst_mem
      ((Option.some_inj.mp h) ▸ List.mem_map_of_mem Prod.fst hp)

/-- Inversion for `resolveOne`: an accepted code is either the identifier
itself (a dictionary key with an existing directory) or the inverse-mapped
offset of a label (with an existing directory). -/
theorem resolveOne_cases {fs : FileSystem} {dd : String} {d : List (String × String)}
    {s c : String} (h : resolveOne fs dd d s = some c) :
    ((List.lookup s d).isSome ∧ fs.isdir (pathJoin dd s) = true ∧ c = s) ∨
      (invLookup d s = some c ∧ fs.isdir (pathJoin dd c) = true) := by
  unfold resolveOne at h
  split at h
  · next h1 => exact Or.inl ⟨h1.1, h1.2, (Option.some_inj.mp h).symm⟩
  · next h1 =>
    split at h
    · next offset hi =>
      split at h
      · next h2 => exact Or.inr ⟨hi ▸ h, (Option.some_inj.mp h) ▸ h2⟩
      · exact absurd h (by simp)
    · next hi => exact absurd h (by simp)

theorem resolveOne_key {fs : FileSystem} {dd : String} {d : List (String × String)}
    {s c : String} (h : resolveOne fs dd d s = some c) : (List.lookup c d).isSome := by
  rcases resolveOne_cases h with ⟨h1, _, rfl⟩ | ⟨h1, _⟩
  · exact h1
  · exact invLookup_key h1

theorem mem_setAdd {l : List String} {s x : String} :
    x ∈ setAdd l s ↔ x ∈ l ∨ x = s := by
  unfold setAdd
  split
  · next hm =>
    constructor
    · exact Or.inl
    · rintro (h | rfl)
      · exact h
      · exact hm
  · simp

theorem nodup_setAdd {l : List String} {s : String} (h : l.Nodup) :
    (setAdd l s).Nodup := by
  unfold setAdd
  split
  · exact h
  · next hm =>
    exact List.Nodup.append h (List.nodup_singleton s)
      (fun a ha ha' => hm ((List.mem_singleton.mp ha') ▸ ha))

theorem resolveAux_fst_mem {fs : FileSystem} {dd : String} {d : List (String × String)}
    {c : String} (l : List String) (acc : List String) (ws : List Warning) :
    c ∈ (resolveAux fs dd d acc ws l).1 ↔
      c ∈ acc ∨ ∃ s ∈ l, resolveOne fs dd d s = some c := by
  induction l generalizing acc ws with
  | nil => simp [resolveAux]
  | cons s rest ih =>
    unfold resolveAux
    rcases hr : resolveOne fs dd d s with _ | c'
    · rw [ih]
      constructor
      · rintro (h | ⟨s', hs', h⟩)
        · exact Or.inl h
        · exact Or.inr ⟨s', List.mem_cons_of_mem s hs', h⟩
      · rintro (h | ⟨s', hs', h⟩)
        · exact Or.inl h
        · rcases List.mem_cons.mp hs' with rfl | hs'
          · rw [hr] at h; simp at h
          · exact Or.inr ⟨s', hs', h⟩
    · rw [ih, mem_setAdd]
      constructor
      · rintro ((h | rfl) | ⟨s', hs', h⟩)
        · exact Or.inl h
        · exact Or.inr ⟨s, List.mem_cons_self s rest, hr⟩
        · exact Or.inr ⟨s', List.mem_cons_of_mem s hs', h⟩
      · rintro (h | ⟨s', hs', h⟩)
        · exact Or.inl (Or.inl h)
        · rcases List.mem_cons.mp hs' with rfl | hs'
          · rw [hr] at h
            exact Or.inl (Or.inr (Option.some_inj.mp h).symm)
          · exact Or.inr ⟨s', hs', h⟩

theorem resolveAux_nodup {fs : FileSystem} {dd : String} {d : List (String × String)}
    (l : List String) (acc : List String) (ws : List Warning) (h : acc.Nodup) :
    (resolveAux fs dd d acc ws l).1.Nodup := by
  induction l generalizing acc ws with
  | nil => exact h
  | cons s rest ih =>
    unfold resolveAux
    rcases hr : resolveOne fs dd d s with _ | c'
    · exact ih acc _ h
    · exact ih (setAdd acc c') ws (nodup_setAdd h)

theorem resolveAux_ws_sub {fs : FileSystem} {dd : String} {d : List (String × String)}
    (l : List String) (acc : List String) (ws : List Warning) :
    ws ⊆ (resolveAux fs dd d acc ws l).2 := by
  induction l generalizing acc ws with
  | nil => exact fun _ h => h
  | cons t rest ih =>
    unfold resolveAux
    rcases hr : resolveOne fs dd d t with _ | c
    · exact fun w hw => ih acc _ (List.mem_append_left _ hw)
    · exact fun w hw => ih _ ws hw

theorem resolveAux_warn {fs : FileSystem} {dd : String} {d : List (String × String)}
    {s : String} (l : List String) (acc : List String) (ws : List Warning)
    (hs : s ∈ l) (hr : resolveOne fs dd d s = none) :
    Warning.synsetNotFound s dd ∈ (resolveAux fs dd d acc ws l).2 := by
  induction l generalizing acc ws with
  | nil => simp at hs
  | cons s' rest ih =>
    unfold resolveAux
    rcases List.mem_cons.mp hs with rfl | hs'
    · rw [hr]
      exact resolveAux_ws_sub rest acc _
        (List.mem_append_right _ (List.mem_singleton_self _))
    · rcases hr' : resolveOne fs dd d s' with _ | c'
      · exact ih acc _ hs'
      · exact ih _ ws hs'

theorem warnUnknownSynsets_ok_keys {d : List (String × String)} {version : Int}
    {dd : String} {l : List String} {ws : List Warning}
    (h : warnUnknownSynsets d version dd l = Except.ok ws) :
    ∀ s ∈ l, (List.lookup s d).isSome := by
  induction l generalizing ws with
  | nil => simp
  | cons t rest ih =>
    intro s hs
    unfold warnUnknownSynsets at h
    split at h
    · next ht =>
      rcases List.mem_cons.mp hs with rfl | hs'
      · exact ht
      · exact ih h s hs'
    · next ht =>
      rcases hl : List.lookup t d with _ | label
      · rw [hl] at h
        exact absurd h (by simp)
      · exact absurd (Option.isSome_iff_exists.mpr ⟨label, hl⟩) ht

theorem buildModels_fst (fs : FileSystem) (dd md synset : String) (ms : List String) :
    (buildModels fs dd md synset ms).1 =
      (ms.filter
        (fun m => fs.pathExists (pathJoin (pathJoin (pathJoin dd synset) m) md))).map
        (fun m => (synset, m)) := by
  induction ms with
  | nil => rfl
  | cons m rest ih =>
    unfold buildModels
    by_cases hx : fs.pathExists (pathJoin (pathJoin (pathJoin dd synset) m) md) = true
    · simp [hx, List.filter_cons, ih]
    · simp only [Bool.not_eq_true] at hx
      simp [hx, List.filter_cons, ih]

theorem buildModels_warn {fs : FileSystem} {dd md synset : String} {m : String}
    (ms : List String) (hm : m ∈ ms)
    (hx : fs.pathExists (pathJoin (pathJoin (pathJoin dd synset) m) md) = false) :
    Warning.objNotFound m synset ∈ (buildModels fs dd md synset ms).2 := by
  induction ms with
  | nil => simp at hm
  | cons t rest ih =>
    unfold buildModels
    rcases List.mem_cons.mp hm with rfl | hm'
    · simp [hx]
    · split
      · exact ih hm'
      · exact List.mem_cons_of_mem _ (ih hm')

theorem buildIndex_mem {fs : FileSystem} {dd md : String} {c m : String}
    (ss : List String) :
    (c, m) ∈ (buildIndex fs dd md ss).1 ↔
      c ∈ ss ∧ m ∈ fs.listdir (pathJoin dd c) ∧
        fs.pathExists (pathJoin (pathJoin (pathJoin dd c) m) md) = true := by
  induction ss with
  | nil => simp [buildIndex]
  | cons synset rest ih =>
    unfold buildIndex
    simp only [List.mem_append, ih, buildModels_fst, List.mem_map, List.mem_filter]
    constructor
    · rintro (⟨m', ⟨hm', hx⟩, he⟩ | ⟨hc, hm, hx⟩)
      · obtain ⟨rfl, rfl⟩ : synset = c ∧ m' = m := by
          exact ⟨congrArg Prod.fst he, congrArg Prod.snd he⟩
        exact ⟨List.mem_cons_self _ _, hm', hx⟩
      · exact ⟨List.mem_cons_of_mem _ hc, hm, hx⟩
    · rintro ⟨hc, hm, hx⟩
      rcases List.mem_cons.mp hc with rfl | hc'
      · exact Or.inl ⟨m, ⟨hm, hx⟩, rfl⟩
      · exact Or.inr ⟨hc', hm, hx⟩

theorem buildIndex_warn {fs : FileSystem} {dd md : String} {c m : String}
    (ss : List String) (hc : c ∈ ss) (hm : m ∈ fs.listdir (pathJoin dd c))
    (hx : fs.pathExists (pathJoin (pathJoin (pathJoin dd c) m) md) = false) :
    Warning.objNotFound m c ∈ (buildIndex fs dd md ss).2 := by
  induction ss with
  | nil => simp at hc
  | cons synset rest ih =>
    unfold buildIndex
    rcases List.mem_cons.mp hc with rfl | hc'
    · exact List.mem_append_left _ (buildModels_warn _ hm hx)
    · exact List.mem_append_right _ (ih hc')

theorem buildIndex_nodup {fs : FileSystem} {dd md : String} (ss : List String)
    (hss : ss.Nodup) (hld : ∀ c ∈ ss, (fs.listdir (pathJoin dd c)).Nodup) :
    (buildIndex fs dd md ss).1.Nodup := by
  induction ss with
  | nil => simp [buildIndex]
  | cons synset rest ih =>
    unfold buildIndex
    rcases List.nodup_cons.mp hss with ⟨hns, hrest⟩
    refine List.Nodup.append ?_ (ih hrest (fun c hc => hld c (List.mem_cons_of_mem _ hc))) ?_
    · rw [buildModels_fst]
      exact List.Nodup.map (fun a b hab => congrArg Prod.snd hab)
        (List.Nodup.filter _ (hld synset (List.mem_cons_self _ _)))
    · intro p hp hp'
      rw [buildModels_fst, List.mem_map] at hp
      obtain ⟨m', _, rfl⟩ := hp
      have := (buildIndex_mem rest).mp hp'
      exact hns this.1

theorem pyGet_nat {α : Type} (l : List α) (i : Nat) (h : i < l.length) :
    pyGet l (i : Int) = Except.ok (l.get ⟨i, h⟩) := by
  unfold pyGet
  have h0 : ¬((i : Int) < 0) := by omega
  have h1 : (0 : Int) ≤ (i : Int) ∧ (i : Int) < (l.length : Int) := by omega
  simp only [h0, if_false]
  rw [dif_pos h1]
  congr 1

theorem pyGet_len {α : Type} (l : List α) :
    pyGet l (l.length : Int) = Except.error PyError.indexError := by
  unfold pyGet
  have h0 : ¬((l.length : Int) < 0) := by omega
  simp only [h0, if_false]
  rw [dif_neg (by omega)]

theorem pyGet_neg {α : Type} (l : List α) (k : Nat) (h1 : 1 ≤ k) (h2 : k ≤ l.length) :
    pyGet l (-(k : Int)) = Except.ok (l.get ⟨l.length - k, by omega⟩) := by
  unfold pyGet
  have h0 : (-(k : Int)) < 0 := by omega
  simp only [h0, if_true]
  rw [dif_pos (by omega)]
  refine congrArg Except.ok ?_
  have hg : ∀ (i j : Nat) (hi : i < l.length) (hj : j < l.length), i = j →
      l.get ⟨i, hi⟩ = l.get ⟨j, hj⟩ := by
    intro i j hi hj hij
    subst hij
    rfl
  exact hg _ _ _ _ (by omega)

theorem pyGet_neg_empty {α : Type} (l : List α) (h : l.length = 0) :
    pyGet l (-1) = Except.error PyError.indexError := by
  unfold pyGet
  rw [dif_neg (by omega)]

theorem init_ok_core {fs : FileSystem} {dd : String} {syn : Option (List String)}
    {v : Int} {d1 d2 : List (String × String)} {sn : ShapeNetCore} {ws : List Warning}
    (h : init fs dd syn v d1 d2 = Except.ok (sn, ws)) :
    sn = mkCore dd (modelDirFor v) (dictFor v d1 d2)
      (buildIndex fs dd (modelDirFor v) (resolvedSet fs dd (dictFor v d1 d2) syn)).1 := by
  by_cases hv : v = 1 ∨ v = 2
  · unfold init at h
    rw [if_neg (not_not_intro hv)] at h
    cases syn with
    | none =>
      simp only [] at h
      rcases hw : warnUnknownSynsets (dictFor v d1 d2) v dd (allSubdirs fs dd)
        with e | ws1
      · rw [hw] at h
        exact absurd h (by simp)
      · rw [hw] at h
        simp only [Except.ok.injEq, Prod.mk.injEq] at h
        exact h.1.symm
    | some l =>
      simp only [Except.ok.injEq, Prod.mk.injEq] at h
      exact h.1.symm
  · unfold init at h
    rw [if_pos hv] at h
    exact absurd h (by simp)

theorem init_ok_ws_build {fs : FileSystem} {dd : String} {syn : Option (List String)}
    {v : Int} {d1 d2 : List (String × String)} {sn : ShapeNetCore} {ws : List Warning}
    (h : init fs dd syn v d1 d2 = Except.ok (sn, ws)) :
    ∀ w ∈ (buildIndex fs dd (modelDirFor v) (resolvedSet fs dd (dictFor v d1 d2) syn)).2,
      w ∈ ws := by
  by_cases hv : v = 1 ∨ v = 2
  · unfold init at h
    rw [if_neg (not_not_intro hv)] at h
    cases syn with
    | none =>
      simp only [] at h
      rcases hw : warnUnknownSynsets (dictFor v d1 d2) v dd (allSubdirs fs dd)
        with e | ws1
      · rw [hw] at h
        exact absurd h (by simp)
      · rw [hw] at h
        simp only [Except.ok.injEq, Prod.mk.injEq] at h
        intro w hwm
        rw [← h.2]
        exact List.mem_append_right _ hwm
    | some l =>
      simp only [Except.ok.injEq, Prod.mk.injEq] at h
      intro w hwm
      rw [← h.2]
      exact List.mem_append_right _ hwm
  · unfold init at h
    rw [if_pos hv] at h
    exact absurd h (by simp)

theorem init_ok_ws_resolve {fs : FileSystem} {dd : String} {l : List String}
    {v : Int} {d1 d2 : List (String × String)} {sn : ShapeNetCore} {ws : List Warning}
    (h : init fs dd (some l) v d1 d2 = Except.ok (sn, ws)) :
    ∀ w ∈ (resolveSynsets fs dd (dictFor v d1 d2) l).2, w ∈ ws := by
  by_cases hv : v = 1 ∨ v = 2
  · unfold init at h
    rw [if_neg (not_not_intro hv)] at h
    simp only [Except.ok.injEq, Prod.mk.injEq] at h
    intro w hwm
    rw [← h.2]
    exact List.mem_append_left _ hwm
  · unfold init at h
    rw [if_pos hv] at h
    exact absurd h (by simp)

theorem init_ok_none_keys {fs : FileSystem} {dd : String}
    {v : Int} {d1 d2 : List (String × String)} {sn : ShapeNetCore} {ws : List Warning}
    (h : init fs dd none v d1 d2 = Except.ok (sn, ws)) :
    ∀ s ∈ allSubdirs fs dd, (List.lookup s (dictFor v d1 d2)).isSome := by
  by_cases hv : v = 1 ∨ v = 2
  · unfold init at h
    rw [if_neg (not_not_intro hv)] at h
    simp only [] at h
    rcases hw : warnUnknownSynsets (dictFor v d1 d2) v dd (allSubdirs fs dd)
      with e | ws1
    · rw [hw] at h
      exact absurd h (by simp)
    · exact warnUnknownSynsets_ok_keys hw
  · unfold init at h
    rw [if_pos hv] at h
    exact absurd h (by simp)

theorem init_ok_keys {fs : FileSystem} {dd : String} {syn : Option (List String)}
    {v : Int} {d1 d2 : List (String × String)} {sn : ShapeNetCore} {ws : List Warning}
    (h : init fs dd syn v d1 d2 = Except.ok (sn, ws)) :
    ∀ s ∈ sn.synset_ids, (List.lookup s sn.synset_dict).isSome := by
  have hc := init_ok_core h
  subst hc
  intro s hs
  simp only [mkCore] at hs ⊢
  rw [List.mem_map] at hs
  obtain ⟨p, hp, rfl⟩ := hs
  have hm : (p.1, p.2) ∈
      (buildIndex fs dd (modelDirFor v) (resolvedSet fs dd (dictFor v d1 d2) syn)).1 := by
    simpa using hp
  have hres := ((buildIndex_mem _).mp hm).1
  cases syn with
  | none => exact init_ok_none_keys h p.1 hres
  | some l =>
    rcases (resolveAux_fst_mem l [] []).mp hres with h' | ⟨s', _, hr⟩
    · simp at h'
    · exact resolveOne_key hr

theorem init_ok_len {fs : FileSystem} {dd : String} {syn : Option (List String)}
    {v : Int} {d1 d2 : List (String × String)} {sn : ShapeNetCore} {ws : List Warning}
    (h : init fs dd syn v d1 d2 = Except.ok (sn, ws)) :
    sn.synset_ids.length = sn.model_ids.length := by
  have hc := init_ok_core h
  subst hc
  simp [mkCore]

theorem getitem_ok {V F A : Type} (load_obj : String → ObjResult V F A)
    (sn : ShapeNetCore)
    (hlen : sn.synset_ids.length = sn.model_ids.length)
    (hkeys : ∀ s ∈ sn.synset_ids, (List.lookup s sn.synset_dict).isSome)
    (i : Nat) (hi : i < sn.model_ids.length) :
    ∃ m : ShapeNetModel V F,
      getitem load_obj sn (i : Int) = Except.ok m ∧
      m.synset_id = sn.synset_ids.get ⟨i, by omega⟩ ∧
      m.model_id = sn.model_ids.get ⟨i, hi⟩ ∧
      List.lookup m.synset_id sn.synset_dict = some m.label := by
  have hi' : i < sn.synset_ids.length := by omega
  have h1 := pyGet_nat sn.synset_ids i hi'
  have h2 := pyGet_nat sn.model_ids i hi
  have hk := hkeys _ (sn.synset_ids.get_mem i hi')
  rcases Option.isSome_iff_exists.mp hk with ⟨label, hl⟩
  refine ⟨⟨sn.synset_ids.get ⟨i, hi'⟩, sn.model_ids.get ⟨i, hi⟩,
    (load_obj (pathJoin (pathJoin (pathJoin sn.data_dir (sn.synset_ids.get ⟨i, hi'⟩))
      (sn.model_ids.get ⟨i, hi⟩)) sn.model_dir)).verts,
    (load_obj (pathJoin (pathJoin (pathJoin sn.data_dir (sn.synset_ids.get ⟨i, hi'⟩))
      (sn.model_ids.get ⟨i, hi⟩)) sn.model_dir)).faces.verts_idx, label⟩,
    ?_, rfl, rfl, hl⟩
  simp only [getitem, h1, h2, hl]

theorem warnUnknownSynsets_error {d : List (String × String)} {v : Int} {dd : String}
    {l : List String} {e : PyError}
    (h : warnUnknownSynsets d v dd l = Except.error e) : e = PyError.keyError := by
  induction l with
  | nil => exact absurd h (by simp [warnUnknownSynsets])
  | cons t rest ih =>
    unfold warnUnknownSynsets at h
    split at h
    · exact ih h
    · next ht =>
      rcases hl : List.lookup t d with _ | label
      · rw [hl] at h
        simp only [Except.error.injEq] at h
        exact h.symm
      · exact absurd (Option.isSome_iff_exists.mpr ⟨label, hl⟩) ht

theorem get_congr {α : Type} (l : List α) {i j : Nat} (hi : i < l.length)
    (hj : j < l.length) (hij : i = j) : l.get ⟨i, hi⟩ = l.get ⟨j, hj⟩ := by
  subst hij
  rfl

theorem getitem_neg_ok {V F A : Type} (load_obj : String → ObjResult V F A)
    (sn : ShapeNetCore)
    (hlen : sn.synset_ids.length = sn.model_ids.length)
    (hkeys : ∀ s ∈ sn.synset_ids, (List.lookup s sn.synset_dict).isSome)
    (k : Nat) (hk1 : 1 ≤ k) (hk2 : k ≤ sn.model_ids.length) :
    ∃ m : ShapeNetModel V F,
      getitem load_obj sn (-(k : Int)) = Except.ok m ∧
      getitem load_obj sn ((sn.model_ids.length - k : Nat) : Int) = Except.ok m := by
  have hkS : k ≤ sn.synset_ids.length := by omega
  have hiS : sn.model_ids.length - k < sn.synset_ids.length := by omega
  have hiM : sn.model_ids.length - k < sn.model_ids.length := by omega
  have e1 := pyGet_neg sn.synset_ids k hk1 hkS
  have e2 := pyGet_neg sn.model_ids k hk1 hk2
  have n1 := pyGet_nat sn.synset_ids (sn.model_ids.length - k) hiS
  have n2 := pyGet_nat sn.model_ids (sn.model_ids.length - k) hiM
  have v1 : sn.synset_ids.get ⟨sn.synset_ids.length - k, by omega⟩ =
      sn.synset_ids.get ⟨sn.model_ids.length - k, hiS⟩ :=
    get_congr _ _ _ (by omega)
  have hkey := hkeys _ (sn.synset_ids.get_mem (sn.model_ids.length - k) hiS)
  rcases Option.isSome_iff_exists.mp hkey with ⟨label, hl⟩
  refine ⟨⟨sn.synset_ids.get ⟨sn.model_ids.length - k, hiS⟩,
    sn.model_ids.get ⟨sn.model_ids.length - k, hiM⟩,
    (load_obj (pathJoin (pathJoin (pathJoin sn.data_dir
      (sn.synset_ids.get ⟨sn.model_ids.length - k, hiS⟩))
      (sn.model_ids.get ⟨sn.model_ids.length - k, hiM⟩)) sn.model_dir)).verts,
    (load_obj (pathJoin (pathJoin (pathJoin sn.data_dir
      (sn.synset_ids.get ⟨sn.model_ids.length - k, hiS⟩))
      (sn.model_ids.get ⟨sn.model_ids.length - k, hiM⟩)) sn.model_dir)).faces.verts_idx,
    label⟩, ?_, ?_⟩
  · simp only [getitem, e1, e2, v1, hl]
  · simp only [getitem, n1, n2, hl]

/-! ## Concrete fixtures

A small synset dictionary and two concrete filesystems used to instantiate
the theorems: `fs0` holds two category directories, one of which contains a
model directory without its mesh file; `fsBad` holds one category directory
whose name is not a dictionary key. -/

def dict1w : List (String × String) := [("02691156", "airplane"), ("02958343", "car")]

def fs0 : FileSystem where
  listdir := fun p =>
    if p = "data" then ["02691156", "02958343"]
    else if p = "data/02691156" then ["m1", "m2"]
    else if p = "data/02958343" then ["c1"]
    else []
  isdir := fun p =>
    p = "data" || p = "data/02691156" || p = "data/02958343"
  pathExists := fun p =>
    p = "data/02691156/m1/model.obj" || p = "data/02958343/c1/model.obj"

def fsBad : FileSystem where
  listdir := fun p => if p = "data" then ["99999999"] else []
  isdir := fun p => p = "data" || p = "data/99999999"
  pathExists := fun _ => false

/-- The object `init fs0 "data" none 1 dict1w []` constructs. -/
def sn0 : ShapeNetCore :=
  { data_dir := "data", model_dir := "model.obj", synset_dict := dict1w
    synset_ids := ["02691156", "02958343"], model_ids := ["m1", "c1"] }

def ws0 : List Warning := [Warning.objNotFound "m2" "02691156"]

theorem init_fs0_eq : init fs0 "data" none 1 dict1w [] = Except.ok (sn0, ws0) := rfl

def loadObj0 : String → ObjResult Nat Nat Nat := fun _ => ⟨0, ⟨1⟩, 2⟩

theorem mkCore_zip (dd md : String) (d : List (String × String))
    (ix : List (String × String)) :
    (mkCore dd md d ix).synset_ids.zip (mkCore dd md d ix).model_ids = ix := by
  simp [mkCore, List.zip_map']

/-! ## Claims -/

/-- Claim C1: for every dataset constructed successfully and every `0 ≤ i < N`,
`__getitem__` returns a record whose `synset_id` is `synset_ids[i]`, whose
`model_id` is `model_ids[i]`, and whose `label` is the synset dictionary's
value for `synset_ids[i]`. -/
theorem C1_getitem_fields {V F A : Type} (load_obj : String → ObjResult V F A)
    {fs : FileSystem} {dd : String} {syn : Option (List String)} {v : Int}
    {d1 d2 : List (String × String)} {sn : ShapeNetCore} {ws : List Warning}
    (h : init fs dd syn v d1 d2 = Except.ok (sn, ws))
    (i : Nat) (hi : i < sn.model_ids.length) :
    ∃ m : ShapeNetModel V F,
      getitem load_obj sn (i : Int) = Except.ok m ∧
      (∃ hS : i < sn.synset_ids.length, m.synset_id = sn.synset_ids.get ⟨i, hS⟩) ∧
      m.model_id = sn.model_ids.get ⟨i, hi⟩ ∧
      List.lookup m.synset_id sn.synset_dict = some m.label := by
  rcases getitem_ok load_obj sn (init_ok_len h) (init_ok_keys h) i hi with ⟨m, h1, h2, h3, h4⟩
  exact ⟨m, h1, ⟨by rw [init_ok_len h]; exact hi, h2⟩, h3, h4⟩

theorem C1_witness :
    init fs0 "data" none 1 dict1w [] = Except.ok (sn0, ws0) ∧
    ∃ m : ShapeNetModel Nat Nat,
      getitem loadObj0 sn0 ((0 : Nat) : Int) = Except.ok m ∧
      (∃ hS : 0 < sn0.synset_ids.length, m.synset_id = sn0.synset_ids.get ⟨0, hS⟩) ∧
      m.model_id = sn0.model_ids.get ⟨0, by decide⟩ ∧
      List.lookup m.synset_id sn0.synset_dict = some m.label :=
  ⟨init_fs0_eq, C1_getitem_fields loadObj0 init_fs0_eq 0 (by decide)⟩

/-- Claim C2: the claim says a subdirectory of `data_dir` that is not a key of the
version's dictionary produces only a non-fatal warning and construction
succeeds.  In the code, building that warning's message interpolates
`self.synset_dict[synset]`, whose key was just established to be absent, so
construction raises `KeyError` instead: `fsBad` has the readable root
`"data"` with the single subdirectory `"99999999"`, which is not a key of
`dict1w`. -/
theorem C2_keyerror_on_unknown_subdir :
    init fsBad "data" none 1 dict1w [] = Except.error PyError.keyError := rfl

/-- Claim C3: an index entry `(code, model)` exists iff `code` is in the resolved
set, `model` is listed in the code's directory, and the mesh file
`<data_dir>/<code>/<model>/<model_dir>` exists; a listed model whose mesh
file is absent yields an `objNotFound` warning; and `__len__` equals the
number of index entries. -/
theorem C3_index_characterization {fs : FileSystem} {dd : String}
    {syn : Option (List String)} {v : Int} {d1 d2 : List (String × String)}
    {sn : ShapeNetCore} {ws : List Warning}
    (h : init fs dd syn v d1 d2 = Except.ok (sn, ws)) :
    (∀ c m : String, (c, m) ∈ sn.synset_ids.zip sn.model_ids ↔
      (c ∈ resolvedSet fs dd (dictFor v d1 d2) syn ∧
       m ∈ fs.listdir (pathJoin dd c) ∧
       fs.pathExists (pathJoin (pathJoin (pathJoin dd c) m) (modelDirFor v)) = true)) ∧
    (∀ c m : String, c ∈ resolvedSet fs dd (dictFor v d1 d2) syn →
       m ∈ fs.listdir (pathJoin dd c) →
       fs.pathExists (pathJoin (pathJoin (pathJoin dd c) m) (modelDirFor v)) = false →
       Warning.objNotFound m c ∈ ws) ∧
    sn.len = (sn.synset_ids.zip sn.model_ids).length := by
  have hws := init_ok_ws_build h
  have hc := init_ok_core h
  subst hc
  rw [mkCore_zip]
  refine ⟨?_, ?_, ?_⟩
  · intro c m
    exact buildIndex_mem _
  · intro c m hcm hm hx
    exact hws _ (buildIndex_warn _ hcm hm hx)
  · simp [ShapeNetCore.len, mkCore]

theorem C3_witness :
    init fs0 "data" none 1 dict1w [] = Except.ok (sn0, ws0) ∧
    ((∀ c m : String, (c, m) ∈ sn0.synset_ids.zip sn0.model_ids ↔
      (c ∈ resolvedSet fs0 "data" (dictFor 1 dict1w []) none ∧
       m ∈ fs0.listdir (pathJoin "data" c) ∧
       fs0.pathExists (pathJoin (pathJoin (pathJoin "data" c) m) (modelDirFor 1)) = true)) ∧
    (∀ c m : String, c ∈ resolvedSet fs0 "data" (dictFor 1 dict1w []) none →
       m ∈ fs0.listdir (pathJoin "data" c) →
       fs0.pathExists (pathJoin (pathJoin (pathJoin "data" c) m) (modelDirFor 1)) = false →
       Warning.objNotFound m c ∈ ws0) ∧
    sn0.len = (sn0.synset_ids.zip sn0.model_ids).length) :=
  ⟨init_fs0_eq, C3_index_characterization init_fs0_eq⟩

/-- Claim C4: with an explicit `synsets` list and a valid version, construction
never fails, and each requested identifier resolves by the three-way rule:
a dictionary key with an existing directory is accepted as itself; otherwise
a label whose inverse-mapped code's directory exists contributes that code;
otherwise a `synsetNotFound` warning naming the identifier and the root is
emitted. -/
theorem C4_three_way_rule (fs : FileSystem) (dd : String) (l : List String)
    (v : Int) (d1 d2 : List (String × String)) (hv : v = 1 ∨ v = 2) :
    ∃ sn ws, init fs dd (some l) v d1 d2 = Except.ok (sn, ws) ∧
      ∀ s ∈ l,
        ((List.lookup s (dictFor v d1 d2)).isSome = true →
          fs.isdir (pathJoin dd s) = true →
          s ∈ resolvedSet fs dd (dictFor v d1 d2) (some l)) ∧
        (¬((List.lookup s (dictFor v d1 d2)).isSome = true ∧
            fs.isdir (pathJoin dd s) = true) →
          ∀ c, invLookup (dictFor v d1 d2) s = some c →
            fs.isdir (pathJoin dd c) = true →
            c ∈ resolvedSet fs dd (dictFor v d1 d2) (some l)) ∧
        (resolveOne fs dd (dictFor v d1 d2) s = none →
          Warning.synsetNotFound s dd ∈ ws) := by
  refine ⟨mkCore dd (modelDirFor v) (dictFor v d1 d2)
      (buildIndex fs dd (modelDirFor v)
        (resolvedSet fs dd (dictFor v d1 d2) (some l))).1,
    (resolveSynsets fs dd (dictFor v d1 d2) l).2 ++
      (buildIndex fs dd (modelDirFor v)
        (resolvedSet fs dd (dictFor v d1 d2) (some l))).2,
    ?_, ?_⟩
  · unfold init
    rw [if_neg (not_not_intro hv)]
    rfl
  · intro s hs
    refine ⟨?_, ?_, ?_⟩
    · intro hk hd
      have hro : resolveOne fs dd (dictFor v d1 d2) s = some s := by
        unfold resolveOne
        rw [if_pos ⟨hk, hd⟩]
      exact (resolveAux_fst_mem l [] []).mpr (Or.inr ⟨s, hs, hro⟩)
    · intro hna c hinv hd
      have hro : resolveOne fs dd (dictFor v d1 d2) s = some c := by
        unfold resolveOne
        rw [if_neg hna]
        simp only [hinv]
        rw [if_pos hd]
      exact (resolveAux_fst_mem l [] []).mpr (Or.inr ⟨s, hs, hro⟩)
    · intro hro
      exact List.mem_append_left _ (resolveAux_warn l [] [] hs hro)

theorem C4_witness :
    ((1 : Int) = 1 ∨ (1 : Int) = 2) ∧
    ∃ sn ws, init fs0 "data" (some ["airplane", "02958343", "junk"]) 1 dict1w [] =
        Except.ok (sn, ws) ∧
      ∀ s ∈ ["airplane", "02958343", "junk"],
        ((List.lookup s (dictFor 1 dict1w [])).isSome = true →
          fs0.isdir (pathJoin "data" s) = true →
          s ∈ resolvedSet fs0 "data" (dictFor 1 dict1w [])
            (some ["airplane", "02958343", "junk"])) ∧
        (¬((List.lookup s (dictFor 1 dict1w [])).isSome = true ∧
            fs0.isdir (pathJoin "data" s) = true) →
          ∀ c, invLookup (dictFor 1 dict1w []) s = some c →
            fs0.isdir (pathJoin "data" c) = true →
            c ∈ resolvedSet fs0 "data" (dictFor 1 dict1w [])
              (some ["airplane", "02958343", "junk"])) ∧
        (resolveOne fs0 "data" (dictFor 1 dict1w []) s = none →
          Warning.synsetNotFound s "data" ∈ ws) :=
  ⟨Or.inl rfl, C4_three_way_rule fs0 "data" ["airplane", "02958343", "junk"] 1 dict1w []
    (Or.inl rfl)⟩

/-- Claim C5, counterexample: `sn0` is constructed by `init` with size 2, yet
`__getitem__` at `-1` succeeds (Python negative indexing returns the last
record) instead of failing with an out-of-range condition. -/
theorem C5_counterexample :
    init fs0 "data" none 1 dict1w [] = Except.ok (sn0, ws0) ∧
    sn0.len = 2 ∧
    getitem loadObj0 sn0 (-1) =
      Except.ok { synset_id := "02958343", model_id := "c1", verts := 0, faces := 1,
                  label := "car" } :=
  ⟨rfl, rfl, rfl⟩

/-- Claim C5 as amended: for every constructed dataset, `get(N)` fails with the
out-of-range error propagated from the underlying list access; `get(-1)`
fails with that error only when `N = 0`, while for `N ≥ 1` it succeeds,
returning a record, per Python's negative-index semantics. -/
theorem C5_amended_bounds {V F A : Type} (load_obj : String → ObjResult V F A)
    {fs : FileSystem} {dd : String} {syn : Option (List String)} {v : Int}
    {d1 d2 : List (String × String)} {sn : ShapeNetCore} {ws : List Warning}
    (h : init fs dd syn v d1 d2 = Except.ok (sn, ws)) :
    getitem load_obj sn (sn.len : Int) = Except.error PyError.indexError ∧
    (sn.len = 0 → getitem load_obj sn (-1) = Except.error PyError.indexError) ∧
    (1 ≤ sn.len → ∃ m : ShapeNetModel V F, getitem load_obj sn (-1) = Except.ok m) := by
  have hlen := init_ok_len h
  refine ⟨?_, ?_, ?_⟩
  · have hN : pyGet sn.synset_ids ((sn.model_ids.length : Nat) : Int) =
        Except.error PyError.indexError := by
      rw [← hlen]
      exact pyGet_len _
    simp only [getitem, ShapeNetCore.len, hN]
  · intro h0
    have h0' : sn.synset_ids.length = 0 := by
      simp only [ShapeNetCore.len] at h0
      omega
    have hN := pyGet_neg_empty sn.synset_ids h0'
    simp only [getitem, hN]
  · intro h1
    rcases getitem_neg_ok load_obj sn hlen (init_ok_keys h) 1 le_rfl h1 with ⟨m, hm, _⟩
    exact ⟨m, by simpa using hm⟩

theorem C5_witness :
    init fs0 "data" none 1 dict1w [] = Except.ok (sn0, ws0) ∧
    getitem loadObj0 sn0 (sn0.len : Int) = Except.error PyError.indexError ∧
    (sn0.len = 0 → getitem loadObj0 sn0 (-1) = Except.error PyError.indexError) ∧
    (1 ≤ sn0.len → ∃ m : ShapeNetModel Nat Nat, getitem loadObj0 sn0 (-1) = Except.ok m) :=
  ⟨init_fs0_eq, C5_amended_bounds loadObj0 init_fs0_eq⟩

/-- Claim C6: construction fails with the version `ValueError` exactly when the
version is outside {1, 2}; the failure is decided before any filesystem
access (the equivalence holds for every filesystem), and for versions 1 and
2 the dictionary load (modelled from the spec as the `dictFor` parameters)
succeeds, so no `ValueError` arises. -/
theorem C6_version_gate (fs : FileSystem) (dd : String) (syn : Option (List String))
    (v : Int) (d1 d2 : List (String × String)) :
    init fs dd syn v d1 d2 = Except.error PyError.valueError ↔ ¬(v = 1 ∨ v = 2) := by
  constructor
  · intro h
    by_contra hv
    unfold init at h
    rw [if_neg (not_not_intro hv)] at h
    cases syn with
    | none =>
      simp only [] at h
      rcases hw : warnUnknownSynsets (dictFor v d1 d2) v dd (allSubdirs fs dd)
        with e | ws1
      · rw [hw] at h
        have he := warnUnknownSynsets_error hw
        rw [he] at h
        exact absurd h (by simp)
      · rw [hw] at h
        exact absurd h (by simp)
    | some l =>
      exact absurd h (by simp)
  · intro hv
    unfold init
    rw [if_pos hv]

/-- Claim C7: every index entry's mesh path — built from the stored root, the
entry's synset id, model id, and the version's mesh filename (`model.obj`
for version 1, `models/model_normalized.obj` otherwise), the same
`model_dir` field `__getitem__` later joins into its load path — exists on
the filesystem at construction time. -/
theorem C7_mesh_paths_exist {fs : FileSystem} {dd : String}
    {syn : Option (List String)} {v : Int} {d1 d2 : List (String × String)}
    {sn : ShapeNetCore} {ws : List Warning}
    (h : init fs dd syn v d1 d2 = Except.ok (sn, ws)) :
    sn.data_dir = dd ∧
    sn.model_dir = (if v = 1 then "model.obj" else "models/model_normalized.obj") ∧
    ∀ p ∈ sn.synset_ids.zip sn.model_ids,
      fs.pathExists (pathJoin (pathJoin (pathJoin sn.data_dir p.1) p.2) sn.model_dir)
        = true := by
  have hc := init_ok_core h
  subst hc
  refine ⟨rfl, rfl, ?_⟩
  intro p hp
  rw [mkCore_zip] at hp
  have hm : (p.1, p.2) ∈
      (buildIndex fs dd (modelDirFor v) (resolvedSet fs dd (dictFor v d1 d2) syn)).1 := by
    simpa using hp
  exact ((buildIndex_mem _).mp hm).2.2

theorem C7_witness :
    init fs0 "data" none 1 dict1w [] = Except.ok (sn0, ws0) ∧
    sn0.data_dir = "data" ∧
    sn0.model_dir = (if (1 : Int) = 1 then "model.obj" else "models/model_normalized.obj") ∧
    ∀ p ∈ sn0.synset_ids.zip sn0.model_ids,
      fs0.pathExists (pathJoin (pathJoin (pathJoin sn0.data_dir p.1) p.2) sn0.model_dir)
        = true :=
  ⟨init_fs0_eq, C7_mesh_paths_exist init_fs0_eq⟩

/-- Claim C8: the resolved category set is duplicate-free and its members are
exactly the codes some requested identifier resolves to (so a category
requested both by code and by label appears once); over duplicate-free
directory listings the resulting index has no duplicated entries. -/
theorem C8_dedup_union (fs : FileSystem) (dd md : String)
    (d : List (String × String)) (l : List String)
    (hld : ∀ c ∈ (resolveSynsets fs dd d l).1, (fs.listdir (pathJoin dd c)).Nodup) :
    (resolveSynsets fs dd d l).1.Nodup ∧
    (∀ c, c ∈ (resolveSynsets fs dd d l).1 ↔ ∃ s ∈ l, resolveOne fs dd d s = some c) ∧
    (buildIndex fs dd md (resolveSynsets fs dd d l).1).1.Nodup := by
  have hnd : (resolveSynsets fs dd d l).1.Nodup :=
    resolveAux_nodup l [] [] List.nodup_nil
  refine ⟨hnd, ?_, ?_⟩
  · intro c
    constructor
    · intro hc
      rcases (resolveAux_fst_mem l [] []).mp hc with h' | h'
      · simp at h'
      · exact h'
    · intro h'
      exact (resolveAux_fst_mem l [] []).mpr (Or.inr h')
  · exact buildIndex_nodup _ hnd hld

theorem C8_witness :
    (∀ c ∈ (resolveSynsets fs0 "data" dict1w ["airplane", "02958343", "02691156"]).1,
      (fs0.listdir (pathJoin "data" c)).Nodup) ∧
    (resolveSynsets fs0 "data" dict1w ["airplane", "02958343", "02691156"]).1.Nodup ∧
    (∀ c, c ∈ (resolveSynsets fs0 "data" dict1w ["airplane", "02958343", "02691156"]).1 ↔
      ∃ s ∈ ["airplane", "02958343", "02691156"],
        resolveOne fs0 "data" dict1w s = some c) ∧
    (buildIndex fs0 "data" "model.obj"
      (resolveSynsets fs0 "data" dict1w ["airplane", "02958343", "02691156"]).1).1.Nodup :=
  ⟨by decide, C8_dedup_union fs0 "data" "model.obj" dict1w
    ["airplane", "02958343", "02691156"] (by decide)⟩

/-- Claim C9: whenever construction completes without raising, every synset id in
the index is a key of the loaded dictionary, so the label lookup in
`__getitem__` never raises `KeyError` for an in-range index. -/
theorem C9_label_lookup_safe {fs : FileSystem} {dd : String}
    {syn : Option (List String)} {v : Int} {d1 d2 : List (String × String)}
    {sn : ShapeNetCore} {ws : List Warning}
    (h : init fs dd syn v d1 d2 = Except.ok (sn, ws)) :
    (∀ s ∈ sn.synset_ids, ∃ lab, List.lookup s sn.synset_dict = some lab) ∧
    ∀ (V F A : Type) (load_obj : String → ObjResult V F A) (i : Nat),
      i < sn.len → getitem load_obj sn (i : Int) ≠ Except.error PyError.keyError := by
  have hkeys := init_ok_keys h
  refine ⟨fun s hs => Option.isSome_iff_exists.mp (hkeys s hs), ?_⟩
  intro V F A load_obj i hi
  rcases getitem_ok load_obj sn (init_ok_len h) hkeys i hi with ⟨m, hm, _⟩
  rw [hm]
  simp

theorem C9_witness :
    init fs0 "data" none 1 dict1w [] = Except.ok (sn0, ws0) ∧
    (∀ s ∈ sn0.synset_ids, ∃ lab, List.lookup s sn0.synset_dict = some lab) ∧
    ∀ (V F A : Type) (load_obj : String → ObjResult V F A) (i : Nat),
      i < sn0.len → getitem load_obj sn0 (i : Int) ≠ Except.error PyError.keyError :=
  ⟨init_fs0_eq, C9_label_lookup_safe init_fs0_eq⟩

/-- Claim C10: for a constructed dataset with `1 ≤ k ≤ N`, `get(-k)` does not
fail: it returns the same record as `get(N - k)`, per the underlying
sequence's negative-index-from-the-end semantics. -/
theorem C10_negative_index {V F A : Type} (load_obj : String → ObjResult V F A)
    {fs : FileSystem} {dd : String} {syn : Option (List String)} {v : Int}
    {d1 d2 : List (String × String)} {sn : ShapeNetCore} {ws : List Warning}
    (h : init fs dd syn v d1 d2 = Except.ok (sn, ws))
    (k : Nat) (hk1 : 1 ≤ k) (hk2 : k ≤ sn.len) :
    ∃ m : ShapeNetModel V F,
      getitem load_obj sn (-(k : Int)) = Except.ok m ∧
      getitem load_obj sn ((sn.len - k : Nat) : Int) = Except.ok m :=
  getitem_neg_ok load_obj sn (init_ok_len h) (init_ok_keys h) k hk1 hk2

theorem C10_witness :
    init fs0 "data" none 1 dict1w [] = Except.ok (sn0, ws0) ∧
    1 ≤ 1 ∧ 1 ≤ sn0.len ∧
    ∃ m : ShapeNetModel Nat Nat,
      getitem loadObj0 sn0 (-((1 : Nat) : Int)) = Except.ok m ∧
      getitem loadObj0 sn0 ((sn0.len - 1 : Nat) : Int) = Except.ok m :=
  ⟨init_fs0_eq, le_rfl, by decide,
    C10_negative_index loadObj0 init_fs0_eq 1 le_rfl (by decide)⟩
